import Mathlib

/-!
Verification of the CNT Explorer 2.0 computational core (src/app.py).

The program is a single Streamlit script evaluating closed-form formulas:
geometry (diameter, metallic flag, bandgap) from chirality indices (n, m),
a band-structure curve, a FET current estimate, a chirality heatmap grid,
an interconnect resistance estimate, and a synthesis recommendation rule.
All real ("float") arithmetic is embedded over ℝ; integer arithmetic,
Python's `%` included, is embedded over ℤ/ℕ.
-/

namespace CNT

/-- Lattice constant, `a = 0.246` nm (src/app.py line 19). -/
noncomputable def a : ℝ := 0.246

/-- Tube diameter: `diameter = (a / math.pi) * math.sqrt(n**2 + n*m + m**2)`
(src/app.py line 21). -/
noncomputable def diameter (n m : ℕ) : ℝ :=
  (a / Real.pi) * Real.sqrt ((n : ℝ) ^ 2 + (n : ℝ) * (m : ℝ) + (m : ℝ) ^ 2)

/-- Metallic test: `metallic = ((n - m) % 3 == 0)` (src/app.py line 22).
Python's `%` on integers and Lean's `Int.emod` agree on whether the
remainder is zero, so the zero test is faithful. -/
def metallic (n m : ℕ) : Bool := ((n : ℤ) - (m : ℤ)) % 3 == 0

/-- Bandgap: `bandgap = 0 if metallic else 0.7 / diameter` (src/app.py line 23). -/
noncomputable def bandgap (n m : ℕ) : ℝ :=
  if metallic n m then 0 else 0.7 / diameter n m

/-- Models the `st.sidebar.number_input` widget (src/app.py lines 16-17):
the value it hands to the script is kept inside `[minv, maxv]`
(out-of-range entries are clamped at the boundary). -/
def number_input (minv maxv v : ℤ) : ℤ := max minv (min maxv v)

/-- Transconductance-like constant `beta = 10e-6` (src/app.py line 62). -/
noncomputable def beta : ℝ := 10e-6

/-- Threshold voltage `Vt = bandgap / 2` (src/app.py line 63). -/
noncomputable def Vt (n m : ℕ) : ℝ := bandgap n m / 2

/-- FET drain current: `Id = max(0, beta * (Vg - Vt) * Vd)` (src/app.py line 64). -/
noncomputable def Id (n m : ℕ) (Vg Vd : ℝ) : ℝ :=
  max 0 (beta * (Vg - Vt n m) * Vd)

/-- Grid-cell diameter:
`d = (a / math.pi) * math.sqrt(i**2 + i*j + j**2) if (i + j) > 0 else 0.0001`
(src/app.py line 79). -/
noncomputable def gridDiameter (i j : ℕ) : ℝ :=
  if 0 < i + j then
    (a / Real.pi) * Real.sqrt ((i : ℝ) ^ 2 + (i : ℝ) * (j : ℝ) + (j : ℝ) ^ 2)
  else 0.0001

/-- Grid metallic test `((i - j) % 3) == 0` (src/app.py line 80). -/
def gridMetallic (i j : ℕ) : Bool := ((i : ℤ) - (j : ℤ)) % 3 == 0

/-- Grid cell value: `grid[i, j] = 0` when `((i - j) % 3) == 0`, else `0.7 / d`
(src/app.py lines 80-83).  The loop body uses only the loop indices `i`, `j`
(never the selected `n`, `m`), so the cell is a function of `(i, j)` alone. -/
noncomputable def gridCell (i j : ℕ) : ℝ :=
  if gridMetallic i j then 0 else 0.7 / gridDiameter i j

/-- The `t`-th of the 400 wavevector sample points,
`k = np.linspace(-3, 3, 400)` (src/app.py line 38):
`linspace` places point `t` at `-3 + 6 * t / 399`. -/
noncomputable def kpoint (t : ℕ) : ℝ := -3 + 6 * (t : ℝ) / 399

/-- Number of wavevector samples in `np.linspace(-3, 3, 400)`. -/
def numK : ℕ := 400

/-- Band energy at wavevector `k`:
`E = 0.2 * k` when metallic, else `E = np.sqrt((bandgap/2)**2 + 0.25 * k**2)`
(src/app.py lines 39-42). -/
noncomputable def E (n m : ℕ) (k : ℝ) : ℝ :=
  if metallic n m then 0.2 * k
  else Real.sqrt ((bandgap n m / 2) ^ 2 + 0.25 * k ^ 2)

/-- The plotted band curve: for each sample point the pair of branches
`(k, E(k), -E(k))` (src/app.py lines 44-46 plot `E` and `-E` over `k`). -/
noncomputable def bandCurve (n m : ℕ) : List (ℝ × ℝ × ℝ) :=
  (List.range numK).map (fun t => (kpoint t, E n m (kpoint t), -E n m (kpoint t)))

/-- Resistivity constant `rho = 1e-6` ohm·cm (src/app.py line 102). -/
noncomputable def rho : ℝ := 1e-6

/-- Interconnect resistance:
`length_cm = length_um * 1e-4; R = rho * (length_cm / (diameter * 1e-7))`
(src/app.py lines 103-104), as a function of the length slider value (µm)
and the tube diameter (nm). -/
noncomputable def R (length_um d : ℝ) : ℝ :=
  rho * ((length_um * 1e-4) / (d * 1e-7))

/-- Synthesis recommendation rule (src/app.py lines 140-145):
`if diameter < 1` → laser ablation / arc discharge;
`elif diameter < 2` → CVD / PECVD; `else` → fiber / MWCNT growth. -/
noncomputable def synthesisRecommendation (d : ℝ) : String :=
  if d < 1 then "Laser Ablation / Arc Discharge"
  else if d < 2 then "CVD / PECVD"
  else "Fiber / MWCNT growth"

/-! ### Supporting lemmas -/

/-- The metallic flag decides divisibility of `n - m` by 3. -/
lemma metallic_iff (n m : ℕ) : metallic n m = true ↔ ((n : ℤ) - (m : ℤ)) % 3 = 0 := by
  simp [metallic]

/-- The squared-norm argument of the diameter square root is positive when `n ≥ 1`. -/
lemma arg_pos (n m : ℕ) (h : 1 ≤ n) :
    0 < (n : ℝ) ^ 2 + (n : ℝ) * (m : ℝ) + (m : ℝ) ^ 2 := by
  have hn : (1 : ℝ) ≤ (n : ℝ) := by exact_mod_cast h
  have hm : (0 : ℝ) ≤ (m : ℝ) := Nat.cast_nonneg m
  nlinarith

/-- Diameter is strictly positive whenever `n ≥ 1`. -/
lemma diameter_pos (n m : ℕ) (h : 1 ≤ n) : 0 < diameter n m := by
  unfold diameter a
  have h1 : (0 : ℝ) < 0.246 / Real.pi := div_pos (by norm_num) Real.pi_pos
  have h2 : 0 < Real.sqrt ((n : ℝ) ^ 2 + (n : ℝ) * (m : ℝ) + (m : ℝ) ^ 2) :=
    Real.sqrt_pos.mpr (arg_pos n m h)
  exact mul_pos h1 h2

/-- Diameter is always nonnegative. -/
lemma diameter_nonneg (n m : ℕ) : 0 ≤ diameter n m := by
  unfold diameter a
  have h1 : (0 : ℝ) ≤ 0.246 / Real.pi := le_of_lt (div_pos (by norm_num) Real.pi_pos)
  exact mul_nonneg h1 (Real.sqrt_nonneg _)

/-- Bandgap is nonnegative for every pair of indices. -/
lemma bandgap_nonneg (n m : ℕ) : 0 ≤ bandgap n m := by
  unfold bandgap
  split
  · exact le_refl 0
  · exact div_nonneg (by norm_num) (diameter_nonneg n m)

/-! ### Claim theorems -/

/-- Claim C1: for every chirality pair (n, m) with n ≥ 1 and m ≥ 0, the tube
is classified metallic iff (n − m) mod 3 = 0, and whenever it is metallic the
computed bandgap is exactly 0; the state (metallic, bandgap ≠ 0) never arises. -/
theorem C1_metallic_iff_bandgap_zero (n m : ℕ) (h : 1 ≤ n) :
    (metallic n m = true ↔ ((n : ℤ) - (m : ℤ)) % 3 = 0) ∧
    (metallic n m = true → bandgap n m = 0) ∧
    ¬(metallic n m = true ∧ bandgap n m ≠ 0) := by
  refine ⟨metallic_iff n m, fun hm => by simp [bandgap, hm], ?_⟩
  rintro ⟨hm, hb⟩
  exact hb (by simp [bandgap, hm])

/-- Witness for C1 at (n, m) = (3, 0): metallic, bandgap exactly 0. -/
theorem C1_witness : bandgap 3 0 = 0 :=
  (C1_metallic_iff_bandgap_zero 3 0 (by norm_num)).2.1 (by decide)

/-- Claim C5: for n ≥ 1, m ≥ 0 the diameter equals (0.246/π)·√(n² + nm + m²)
and is strictly positive, and for every non-metallic such pair the bandgap
equals exactly 0.7 / diameter and is strictly positive. -/
theorem C5_diameter_bandgap (n m : ℕ) (h : 1 ≤ n) :
    diameter n m =
      (0.246 / Real.pi) * Real.sqrt ((n : ℝ) ^ 2 + (n : ℝ) * (m : ℝ) + (m : ℝ) ^ 2) ∧
    0 < diameter n m ∧
    (metallic n m = false → bandgap n m = 0.7 / diameter n m ∧ 0 < bandgap n m) := by
  refine ⟨rfl, diameter_pos n m h, fun hm => ?_⟩
  have hb : bandgap n m = 0.7 / diameter n m := by simp [bandgap, hm]
  exact ⟨hb, hb ▸ div_pos (by norm_num) (diameter_pos n m h)⟩

/-- Witness for C5 at (n, m) = (1, 0): positive diameter, bandgap 0.7/diameter. -/
theorem C5_witness : 0 < diameter 1 0 ∧ bandgap 1 0 = 0.7 / diameter 1 0 :=
  ⟨(C5_diameter_bandgap 1 0 (by norm_num)).2.1,
   ((C5_diameter_bandgap 1 0 (by norm_num)).2.2 (by decide)).1⟩

/-- Claim C4: for every gate voltage Vg ∈ [0,2], drain voltage Vd ∈ [0,2] and
tube geometry, the FET current equals max(0, β·(Vg − bandgap/2)·Vd) with
β = 10e-6, is never negative, and is exactly zero at or below threshold. -/
theorem C4_fet_current (n m : ℕ) (Vg Vd : ℝ) (hn : 1 ≤ n)
    (hVg0 : 0 ≤ Vg) (hVg2 : Vg ≤ 2) (hVd0 : 0 ≤ Vd) (hVd2 : Vd ≤ 2) :
    Id n m Vg Vd = max 0 ((10e-6 : ℝ) * (Vg - bandgap n m / 2) * Vd) ∧
    0 ≤ Id n m Vg Vd ∧
    (Vg ≤ bandgap n m / 2 → Id n m Vg Vd = 0) := by
  refine ⟨rfl, le_max_left 0 _, fun hvt => ?_⟩
  have hb : (0 : ℝ) ≤ beta := by norm_num [beta]
  have h1 : Vg - Vt n m ≤ 0 := by
    have : Vt n m = bandgap n m / 2 := rfl
    linarith [hvt, this]
  have h2 : beta * (Vg - Vt n m) * Vd ≤ 0 :=
    mul_nonpos_of_nonpos_of_nonneg (mul_nonpos_of_nonneg_of_nonpos hb h1) hVd0
  exact max_eq_left h2

/-- Witness for C4 at (n, m) = (1, 0), Vg = 0, Vd = 1: current is nonnegative,
and zero since Vg = 0 is below the positive threshold. -/
theorem C4_witness : 0 ≤ Id 1 0 0 1 ∧ Id 1 0 0 1 = 0 :=
  ⟨(C4_fet_current 1 0 0 1 (by norm_num) (by norm_num) (by norm_num)
      (by norm_num) (by norm_num)).2.1,
   (C4_fet_current 1 0 0 1 (by norm_num) (by norm_num) (by norm_num)
      (by norm_num) (by norm_num)).2.2
      (by have := bandgap_nonneg 1 0; linarith)⟩

/-- Claim C6: the synthesis recommendation is a step function of diameter with
breakpoints at exactly 1.0 and 2.0; diameter exactly 1.0 selects CVD/PECVD and
exactly 2.0 selects fiber/MWCNT. -/
theorem C6_synthesis_step (d : ℝ) :
    (d < 1 → synthesisRecommendation d = "Laser Ablation / Arc Discharge") ∧
    (1 ≤ d → d < 2 → synthesisRecommendation d = "CVD / PECVD") ∧
    (2 ≤ d → synthesisRecommendation d = "Fiber / MWCNT growth") ∧
    synthesisRecommendation 1 = "CVD / PECVD" ∧
    synthesisRecommendation 2 = "Fiber / MWCNT growth" := by
  refine ⟨?_, ?_, ?_, ?_, ?_⟩
  · intro h
    unfold synthesisRecommendation
    rw [if_pos h]
  · intro h1 h2
    unfold synthesisRecommendation
    rw [if_neg (not_lt.mpr h1), if_pos h2]
  · intro h
    unfold synthesisRecommendation
    rw [if_neg (by linarith), if_neg (not_lt.mpr h)]
  · unfold synthesisRecommendation
    rw [if_neg (by norm_num), if_pos (by norm_num)]
  · unfold synthesisRecommendation
    rw [if_neg (by norm_num), if_neg (by norm_num)]

/-- Witness for C6 at diameter 0.5: the small-diameter branch is selected. -/
theorem C6_witness : synthesisRecommendation 0.5 = "Laser Ablation / Arc Discharge" :=
  (C6_synthesis_step 0.5).1 (by norm_num)

/-- Claim C7: for every length L ∈ [0.1, 20] µm and positive diameter, the
resistance equals 1e-6·(L·1e-4)/(d·1e-7), is strictly positive, and scaling L
by any factor c > 0 scales R by exactly c. -/
theorem C7_resistance (L d c : ℝ) (hL1 : 0.1 ≤ L) (hL2 : L ≤ 20)
    (hd : 0 < d) (hc : 0 < c) :
    R L d = (1e-6 : ℝ) * ((L * 1e-4) / (d * 1e-7)) ∧
    0 < R L d ∧
    R (c * L) d = c * R L d := by
  have hd7 : (0 : ℝ) < d * 1e-7 := by nlinarith
  refine ⟨rfl, ?_, ?_⟩
  · unfold R rho
    have hL : (0 : ℝ) < L * 1e-4 := by nlinarith
    exact mul_pos (by norm_num) (div_pos hL hd7)
  · unfold R rho
    rw [mul_comm c (1e-6 * (L * 1e-4 / (d * 1e-7)))]
    field_simp
    ring

/-- Witness for C7 at L = 1, d = 1, c = 2: positive resistance, doubling the
length doubles the resistance. -/
theorem C7_witness : 0 < R 1 1 ∧ R (2 * 1) 1 = 2 * R 1 1 :=
  ⟨(C7_resistance 1 1 2 (by norm_num) (by norm_num) (by norm_num) (by norm_num)).2.1,
   (C7_resistance 1 1 2 (by norm_num) (by norm_num) (by norm_num) (by norm_num)).2.2⟩

/-- Claim C8: for every grid size S ∈ [10, 40] and cell (i, j) with
0 ≤ i, j < S and i + j > 0, the grid value is exactly 0 when (i − j) mod 3 = 0
and otherwise equals 0.7 / ((0.246/π)·√(i² + ij + j²)); the cell value is a
function of (i, j) alone (the loop body never reads the selected n, m). -/
theorem C8_grid (S i j : ℕ) (hS1 : 10 ≤ S) (hS2 : S ≤ 40)
    (hi : i < S) (hj : j < S) (hij : 0 < i + j) :
    (((i : ℤ) - (j : ℤ)) % 3 = 0 → gridCell i j = 0) ∧
    (((i : ℤ) - (j : ℤ)) % 3 ≠ 0 →
      gridCell i j =
        0.7 / ((0.246 / Real.pi) *
          Real.sqrt ((i : ℝ) ^ 2 + (i : ℝ) * (j : ℝ) + (j : ℝ) ^ 2))) := by
  constructor
  · intro h
    have hm : gridMetallic i j = true := by simp [gridMetallic, h]
    simp [gridCell, hm]
  · intro h
    have hm : gridMetallic i j = false := by simp [gridMetallic, h]
    simp [gridCell, hm, gridDiameter, hij, a]

/-- Witness for C8 in a size-10 grid at (i, j) = (0, 3): on the metallic line,
the cell value is exactly 0. -/
theorem C8_witness : gridCell 0 3 = 0 :=
  (C8_grid 10 0 3 (by norm_num) (by norm_num) (by norm_num) (by norm_num)
    (by norm_num)).1 (by decide)

/-- Claim C9: the band curve is computed over exactly 400 evenly spaced
wavevector points in [−3, 3]; for a metallic tube each energy value is 0.2·k,
for a semiconducting tube it is √((bandgap/2)² + 0.25·k²), and the curve
carries both +E(k) and −E(k). -/
theorem C9_band_curve (n m : ℕ) (k : ℝ) (t : ℕ) :
    numK = 400 ∧
    kpoint 0 = -3 ∧
    kpoint 399 = 3 ∧
    kpoint (t + 1) - kpoint t = 6 / 399 ∧
    bandCurve n m =
      (List.range 400).map (fun s => (kpoint s, E n m (kpoint s), -E n m (kpoint s))) ∧
    (bandCurve n m).length = 400 ∧
    (metallic n m = true → E n m k = 0.2 * k) ∧
    (metallic n m = false →
      E n m k = Real.sqrt ((bandgap n m / 2) ^ 2 + 0.25 * k ^ 2)) := by
  refine ⟨rfl, by norm_num [kpoint], by norm_num [kpoint], ?_, rfl,
    by simp [bandCurve, numK], fun hm => by simp [E, hm], fun hm => by simp [E, hm]⟩
  unfold kpoint
  push_cast
  ring

/-- Witness for C9 at the metallic tube (3, 0), k = 1: E(1) = 0.2 · 1. -/
theorem C9_witness : E 3 0 1 = 0.2 * 1 :=
  (C9_band_curve 3 0 1 0).2.2.2.2.2.2.1 (by decide)

/-- Claim C10: for every semiconducting tube the dispersion satisfies
E(k) ≥ bandgap/2 at every k, the minimum is attained at k = 0 where
E(0) = bandgap/2 exactly, and the gap between the +E and −E branches at
k = 0 equals exactly the bandgap. -/
theorem C10_gap_minimum (n m : ℕ) (hn : 1 ≤ n) (hm : metallic n m = false) (k : ℝ) :
    bandgap n m / 2 ≤ E n m k ∧
    E n m 0 = bandgap n m / 2 ∧
    E n m 0 - (-(E n m 0)) = bandgap n m := by
  have hb : 0 ≤ bandgap n m / 2 := by have := bandgap_nonneg n m; linarith
  have hE : ∀ x : ℝ, E n m x = Real.sqrt ((bandgap n m / 2) ^ 2 + 0.25 * x ^ 2) :=
    fun x => by simp [E, hm]
  have hzero : (bandgap n m / 2) ^ 2 + 0.25 * (0 : ℝ) ^ 2 = (bandgap n m / 2) ^ 2 := by
    ring
  have h0 : E n m 0 = bandgap n m / 2 := by
    rw [hE 0, hzero, Real.sqrt_sq hb]
  refine ⟨?_, h0, by rw [h0]; ring⟩
  rw [hE k]
  calc bandgap n m / 2 = Real.sqrt ((bandgap n m / 2) ^ 2) := (Real.sqrt_sq hb).symm
    _ ≤ _ := Real.sqrt_le_sqrt (by nlinarith [sq_nonneg k])

/-- Witness for C10 at the semiconducting tube (1, 0), k = 1. -/
theorem C10_witness : bandgap 1 0 / 2 ≤ E 1 0 1 ∧ E 1 0 0 = bandgap 1 0 / 2 :=
  ⟨(C10_gap_minimum 1 0 (by norm_num) (by decide) 1).1,
   (C10_gap_minimum 1 0 (by norm_num) (by decide) 1).2.1⟩

/-- Claim C2 counterexample: in the grid, cell (0, 0) is NOT the value
0.7 / 0.0001: since (0 − 0) % 3 == 0 the metallic branch fires and the cell
is set to exactly 0; the fallback diameter 0.0001 computed for (0, 0) is
never used in the cell's value. -/
theorem C2_counterexample : gridCell 0 0 = 0 ∧ gridCell 0 0 ≠ 0.7 / 0.0001 := by
  have hm : gridMetallic 0 0 = true := by decide
  have h : gridCell 0 0 = 0 := by simp [gridCell, hm]
  exact ⟨h, by rw [h]; norm_num⟩

/-- Claim C2 amended: cell (0, 0) computes the epsilon fallback diameter
0.0001 (since i + j = 0), but its grid value is exactly 0, because
(0 − 0) % 3 == 0 selects the metallic branch before the division is reached. -/
theorem C2_amended_grid_origin : gridDiameter 0 0 = 0.0001 ∧ gridCell 0 0 = 0 := by
  have hm : gridMetallic 0 0 = true := by decide
  exact ⟨by simp [gridDiameter], by simp [gridCell, hm]⟩

/-- Claim C3 counterexample: evaluated at (n, m) = (0, 0) the core formulas
return normally rather than raising any error: (0 − 0) % 3 == 0 classifies the
tube metallic, so the bandgap is exactly 0 (the division 0.7 / diameter is
never evaluated) even though the diameter is 0; no DegenerateInputError
exists anywhere in the code. -/
theorem C3_counterexample :
    metallic 0 0 = true ∧ bandgap 0 0 = 0 ∧ diameter 0 0 = 0 := by
  have hm : metallic 0 0 = true := by decide
  refine ⟨hm, by simp [bandgap, hm], ?_⟩
  unfold diameter
  norm_num

/-- Claim C3 amended: the degenerate input n = 0 is prevented upstream by the
chirality-n widget, whose value is confined to [1, 200]; and even if the core
formulas were evaluated at (0, 0), they return metallic = true with bandgap
exactly 0 — no error, infinity, or NaN. -/
theorem C3_amended_degenerate_guard :
    (∀ v : ℤ, 1 ≤ number_input 1 200 v) ∧ metallic 0 0 = true ∧ bandgap 0 0 = 0 := by
  have hm : metallic 0 0 = true := by decide
  exact ⟨fun v => le_max_left 1 _, hm, by simp [bandgap, hm]⟩

end CNT
